import Mathlib

/-!
Verification of the spycewar/spacewar gameplay core.

This file gives a shallow embedding, in Lean 4, of the gameplay-relevant
parts of the repository (player health accounting, angle normalisation,
projectile motion and bounds checking, the collision/combat resolver of
the gameplay state, the gameplay event handlers, the state manager's
transition logic, and the ship's firing/velocity physics), and proves or
refutes the frozen specification claims about them.

Python `int` is modelled as `Int`, Python `float` as `ℚ` where only
field operations and comparisons occur (exact on the modelled values)
and as `ℝ` where square roots or trigonometry occur.  Pygame surfaces,
rects and masks are external resources; the collision predicates over
them enter the model as Boolean-valued parameters.  Fallible Python
calls are modelled with `Except`.
-/

/- =====================================================================
   Player health: spycewar/entities/players/state.py (PlayerState)
   ===================================================================== -/

/-- Model of `PlayerState` (state.py): current health and maximum health,
both Python ints.  The `player_id` tag is irrelevant to the health
claims and is omitted here (it is carried separately where needed). -/
structure PlayerState where
  health : Int
  maxHealth : Int
  deriving Repr, DecidableEq

/-- The `health` property setter of `PlayerState`:
`self.__health = max(0, min(self.__max_health, value))`. -/
def setHealth (s : PlayerState) (value : Int) : PlayerState :=
  { s with health := max 0 (min s.maxHealth value) }

/-- `PlayerState.take_damage`: `self.health -= damage`, going through the
clamping setter. -/
def take_damage (s : PlayerState) (damage : Int) : PlayerState :=
  setHealth s (s.health - damage)

/-- `PlayerState.heal`: `self.__health = min(self.__max_health, self.__health + amount)`.
Note this writes the private field directly, bypassing the setter, so it
clamps only from above. -/
def heal (s : PlayerState) (amount : Int) : PlayerState :=
  { s with health := min s.maxHealth (s.health + amount) }

/-- `PlayerState.__init__`: health starts at the configured maximum. -/
def initPlayerState (maxHealth : Int) : PlayerState :=
  { health := maxHealth, maxHealth := maxHealth }

/-- A damage or heal event applied to a player's health, as produced by
the combat resolver (`PLAYER_HIT`) and the power-up pickup handler
(`HEALTH_POWERUP_PICKUP`). -/
inductive HealthEvent where
  | damage (d : Int)
  | heal (a : Int)
  deriving Repr, DecidableEq

/-- Apply one health event via the corresponding `PlayerState` method. -/
def applyHealthEvent (s : PlayerState) (e : HealthEvent) : PlayerState :=
  match e with
  | .damage d => take_damage s d
  | .heal a => heal s a

/-- Apply a sequence of health events in order. -/
def applyHealthEvents (s : PlayerState) (es : List HealthEvent) : PlayerState :=
  es.foldl applyHealthEvent s

/-- The spec's health invariant `0 <= health <= max_health`. -/
def healthInv (s : PlayerState) : Prop :=
  0 ≤ s.health ∧ s.health ≤ s.maxHealth

instance (s : PlayerState) : Decidable (healthInv s) := by
  unfold healthInv; infer_instance

/-- A heal event carries a nonnegative amount (damage events are
unrestricted: the health setter clamps on both sides). -/
def healNonneg : HealthEvent → Prop
  | .heal a => 0 ≤ a
  | .damage _ => True

instance (e : HealthEvent) : Decidable (healNonneg e) := by
  cases e <;> (unfold healNonneg; infer_instance)

/- =====================================================================
   Angle normalisation: spycewar/entities/players/player.py
   (Player.__normalise_angle)
   ===================================================================== -/

/-- Model of `Player.__normalise_angle`:
`if angle > 360: angle -= 360 elif angle < 0: angle += 360`.
The angle is a Python float; only comparisons and `± 360` occur, so `ℚ`
models it exactly. -/
def normalise_angle (angle : ℚ) : ℚ :=
  if angle > 360 then angle - 360
  else if angle < 0 then angle + 360
  else angle

/- =====================================================================
   Projectile motion: spacewar/entities/projectiles/projectile.py
   (Projectile.update) and spacewar/entities/gameobject.py
   (GameObject._in_bounds)
   ===================================================================== -/

/-- A projectile: position and velocity, each a pygame `Vector2` of floats,
modelled exactly over `ℚ` (the update uses only +, * and comparisons). -/
structure Projectile where
  pos : ℚ × ℚ
  vel : ℚ × ℚ
  deriving Repr, DecidableEq

/-- Model of `GameObject._in_bounds`: the candidate position
`self._position + distance` must satisfy
`x >= 0 and x <= width and y >= 0 and y <= height`. -/
def in_bounds (position distance : ℚ × ℚ) (width height : ℚ) : Bool :=
  let nx := position.1 + distance.1
  let ny := position.2 + distance.2
  decide (0 ≤ nx ∧ nx ≤ width ∧ 0 ≤ ny ∧ ny ≤ height)

/-- Model of `Projectile.update`: `distance = velocity * delta_time`; if the
next position is in bounds the position advances by `distance`, otherwise a
`PROJECTILE_OUT_OF_SCREEN` event carrying the projectile itself is posted and
the position is left unchanged.  The second component is the posted event:
`some p` means the event referencing projectile `p` was published. -/
def projectile_update (p : Projectile) (dt width height : ℚ) :
    Projectile × Option Projectile :=
  let distance := (p.vel.1 * dt, p.vel.2 * dt)
  if in_bounds p.pos distance width height then
    ({ p with pos := (p.pos.1 + distance.1, p.pos.2 + distance.2) }, none)
  else
    (p, some p)

/- =====================================================================
   Gameplay entity collections and removal handlers:
   spycewar/states/gameplay.py (__kill_projectile, __kill_thrust,
   __kill_explosion, __kill_player, __game_over, __handle_events)
   ===================================================================== -/

/-- The entity collections owned by the `Gameplay` state, with sprites
identified by distinct ids (pygame group membership is by object
identity), plus the two observable side flags: whether a removal
inconsistency was logged (`logger.error`) and whether the delayed
game-over timer was armed (`pygame.time.set_timer`). -/
structure GameplayEntities where
  players : List Nat
  projectiles : List Nat
  explosions : List Nat
  thrusts : List Nat
  errorLogged : Bool
  gameOverTimerSet : Bool
  done : Bool
  deriving Repr, DecidableEq

/-- The guarded removal shared by all four `__kill_*` handlers:
`if entity in group: group.remove(entity) else: logger.error(...)`.
Returns the new collection and `true` when the error branch was taken. -/
def removeIfPresent (coll : List Nat) (e : Nat) : List Nat × Bool :=
  if e ∈ coll then (coll.erase e, false) else (coll, true)

/-- `Gameplay.__kill_projectile`. -/
def kill_projectile (s : GameplayEntities) (e : Nat) : GameplayEntities :=
  let r := removeIfPresent s.projectiles e
  { s with projectiles := r.1, errorLogged := s.errorLogged || r.2 }

/-- `Gameplay.__kill_thrust`. -/
def kill_thrust (s : GameplayEntities) (e : Nat) : GameplayEntities :=
  let r := removeIfPresent s.thrusts e
  { s with thrusts := r.1, errorLogged := s.errorLogged || r.2 }

/-- `Gameplay.__kill_explosion`. -/
def kill_explosion (s : GameplayEntities) (e : Nat) : GameplayEntities :=
  let r := removeIfPresent s.explosions e
  { s with explosions := r.1, errorLogged := s.errorLogged || r.2 }

/-- `Gameplay.__kill_player`. -/
def kill_player (s : GameplayEntities) (e : Nat) : GameplayEntities :=
  let r := removeIfPresent s.players e
  { s with players := r.1, errorLogged := s.errorLogged || r.2 }

/-- The delay, in milliseconds, of `Gameplay.__game_over`'s one-shot
game-over timer (`trigger_delay: int = 3000`). -/
def gameOverTriggerDelay : Nat := 3000

/-- `Gameplay.__game_over`: posts the `GAMEOVER` event on a one-shot
timer after `gameOverTriggerDelay` milliseconds. -/
def game_over (s : GameplayEntities) : GameplayEntities :=
  { s with gameOverTimerSet := true }

/-- The four removal events the gameplay handler reacts to, carrying the
id of the referenced entity. -/
inductive RemovalEvent where
  | outOfScreen (p : Nat)
  | thrustExhausted (t : Nat)
  | explosionOver (e : Nat)
  | playerDied (p : Nat)
  deriving Repr, DecidableEq

/-- The removal branches of `Gameplay.__handle_events`: each removal event is
routed to its `__kill_*` handler; the `PLAYER_DIED` branch additionally calls
`__game_over()`. -/
def handleRemovalEvent (s : GameplayEntities) (e : RemovalEvent) : GameplayEntities :=
  match e with
  | .outOfScreen p => kill_projectile s p
  | .thrustExhausted t => kill_thrust s t
  | .explosionOver x => kill_explosion s x
  | .playerDied p => game_over (kill_player s p)

/-- The referenced entity of a removal event is absent from its collection. -/
def refAbsent (s : GameplayEntities) : RemovalEvent → Prop
  | .outOfScreen p => p ∉ s.projectiles
  | .thrustExhausted t => t ∉ s.thrusts
  | .explosionOver e => e ∉ s.explosions
  | .playerDied p => p ∉ s.players

instance (s : GameplayEntities) (e : RemovalEvent) : Decidable (refAbsent s e) := by
  cases e <;> (unfold refAbsent; infer_instance)

/-- The four entity collections of two gameplay states coincide. -/
def sameCollections (s t : GameplayEntities) : Prop :=
  s.players = t.players ∧ s.projectiles = t.projectiles ∧
  s.explosions = t.explosions ∧ s.thrusts = t.thrusts

instance (s t : GameplayEntities) : Decidable (sameCollections s t) := by
  unfold sameCollections; infer_instance

/- =====================================================================
   Per-entity event processing: spycewar/entities/players/player.py
   (Player.process_events) and spycewar/entities/players/health_bar.py
   (HealthBar.process_events)
   ===================================================================== -/

/-- The bus events consulted by `Player.process_events` and
`HealthBar.process_events`.  `playerHit` carries the target player (by id,
standing for the `event.player` object reference) and the damage;
`healthPickup` carries the player recorded on the pickup event and the
heal value. -/
inductive BusEvent where
  | playerHit (player : Nat) (damage : Int)
  | healthPickup (player : Nat) (value : Int)
  | other
  deriving Repr, DecidableEq

/-- Model of `Player.process_events`: damage is applied only when
`event.player == self`; the health power-up heal is applied with no
check of which player the event designates. -/
def player_process_events (selfId : Nat) (st : PlayerState) (e : BusEvent) : PlayerState :=
  match e with
  | .playerHit player damage => if player = selfId then take_damage st damage else st
  | .healthPickup _ value => heal st value
  | .other => st

/-- The health bar of a player: spycewar/entities/players/health_bar.py. -/
structure HealthBar where
  playerId : Nat
  hp : Int
  maxHp : Int
  deriving Repr, DecidableEq

/-- `HealthBar.__take_damage`: subtract, then clamp at 0 from below. -/
def healthBar_take_damage (b : HealthBar) (damage : Int) : HealthBar :=
  { b with hp := max 0 (b.hp - damage) }

/-- `HealthBar.__restore_health`: add, then clamp at `max_hp` from above. -/
def healthBar_restore_health (b : HealthBar) (amount : Int) : HealthBar :=
  { b with hp := min b.maxHp (b.hp + amount) }

/-- Model of `HealthBar.process_events`: both the hit branch and the
pickup branch are guarded by
`event.player.state.player_id == self.player_id`. -/
def healthBar_process_events (b : HealthBar) (e : BusEvent) : HealthBar :=
  match e with
  | .playerHit player damage =>
      if player = b.playerId then healthBar_take_damage b damage else b
  | .healthPickup player value =>
      if player = b.playerId then healthBar_restore_health b value else b
  | .other => b

/- =====================================================================
   Collision & combat resolver: spycewar/states/gameplay.py
   (Gameplay.__detect_collisions)
   ===================================================================== -/

/-- A ship in the player group: identity (pygame groups hold objects by
identity) and position.  Rects and pixel masks are pygame resources; the
overlap tests on them enter the model as Boolean relations on ids. -/
structure PlayerE where
  id : Nat
  pos : ℚ × ℚ
  deriving Repr, DecidableEq

/-- A projectile sprite in the projectile group, by identity. -/
structure ProjE where
  id : Nat
  deriving Repr, DecidableEq

/-- The collision pass inputs: the two sprite groups (as ordered lists,
pygame groups iterate in insertion order) and the three externally
computed overlap tests: broad-phase rect overlap and pixel-mask overlap
for (player, projectile) pairs, and pixel-mask overlap for
(player, player) pairs. -/
structure World where
  players : List PlayerE
  projectiles : List ProjE
  collideRect : Nat → Nat → Bool
  collideMaskPP : Nat → Nat → Bool
  collideMaskPl : Nat → Nat → Bool

/-- Model of the inner
`pygame.sprite.groupcollide(players, projectiles, False, True, collide_mask)`
call: iterate the player group; for each player collect the mask-colliding
projectiles still alive, and, when that list is non-empty, kill them
(`dokillb=True`) and record a dict entry.  Returns the surviving projectiles
and whether the returned dict is non-empty (its truthiness). -/
def maskKillPass (allPlayers : List PlayerE) (projs : List ProjE)
    (cm : Nat → Nat → Bool) : List ProjE × Bool :=
  allPlayers.foldl
    (fun acc A =>
      let hits := acc.1.filter (fun q => cm A.id q.id)
      if hits.isEmpty then acc
      else (acc.1.filter (fun q => !(cm A.id q.id)), true))
    (projs, false)

/-- The keys of the outer
`pygame.sprite.groupcollide(players, projectiles, False, False)` dict: the
players having at least one rect-colliding projectile, in group order. -/
def rectPlayers (w : World) : List PlayerE :=
  w.players.filter (fun P => w.projectiles.any (fun q => w.collideRect P.id q.id))

/-- The result of the ship × projectile pass: surviving projectiles,
spawned explosion positions, and posted `PLAYER_HIT` events
(target player id, damage). -/
structure Pass1Result where
  projectiles : List ProjE
  explosions : List (ℚ × ℚ)
  hitEvents : List (Nat × Int)
  deriving Repr, DecidableEq

/-- The body of the ship × projectile loop: for each key `P` of the outer
rect dict, re-run the mask groupcollide over all players and the current
projectiles; if its dict is truthy, spawn an explosion at `P.pos` and post
`PLAYER_HIT` targeting `P` with damage `random.randint(10, 20)` (modelled by
the stream `damages`, indexed by the number of draws so far). -/
def pass1Go (allPlayers : List PlayerE) (cm : Nat → Nat → Bool)
    (damages : Nat → Int) : List PlayerE → List ProjE → Nat → Pass1Result
  | [], projs, _ => ⟨projs, [], []⟩
  | P :: rest, projs, k =>
      let step := maskKillPass allPlayers projs cm
      if step.2 then
        let r := pass1Go allPlayers cm damages rest step.1 (k + 1)
        ⟨r.projectiles, P.pos :: r.explosions, (P.id, damages k) :: r.hitEvents⟩
      else
        pass1Go allPlayers cm damages rest step.1 k

/-- The ship × projectile pass of `Gameplay.__detect_collisions`. -/
def detectShipProjectile (w : World) (damages : Nat → Int) : Pass1Result :=
  pass1Go w.players w.collideMaskPP damages (rectPlayers w) w.projectiles 0

/-- State threaded through the ship × ship pass: the live player group,
explosions spawned so far, and whether `__kill_player` hit its
`logger.error` branch. -/
structure Pass2State where
  live : List PlayerE
  explosions : List (ℚ × ℚ)
  errorLogged : Bool
  deriving Repr, DecidableEq

/-- `Gameplay.__kill_player` acting on the live group:
remove if present, otherwise log an error. -/
def killPlayerInGroup (s : Pass2State) (pid : Nat) : Pass2State :=
  if s.live.any (fun x => x.id == pid) then
    { s with live := s.live.filter (fun x => x.id != pid) }
  else
    { s with errorLogged := true }

/-- The inner ship × ship loop body over the slice
`self.__players.sprites()[i+1:]`: on `player1.pos != player2.pos` and a
mask overlap, spawn explosions at both positions and kill both players. -/
def pass2Inner (cmp : Nat → Nat → Bool) (p1 : PlayerE) (inner : List PlayerE)
    (s : Pass2State) : Pass2State :=
  inner.foldl
    (fun s p2 =>
      if p1.pos ≠ p2.pos ∧ cmp p1.id p2.id = true then
        killPlayerInGroup (killPlayerInGroup
          { s with explosions := s.explosions ++ [p1.pos, p2.pos] } p1.id) p2.id
      else s) s

/-- The outer ship × ship loop: `enumerate(self.__players)` iterates a
snapshot of the group taken at loop entry, while the inner slice
`self.__players.sprites()[i+1:]` is re-taken from the live group at each
outer step. -/
def pass2Outer (cmp : Nat → Nat → Bool) : List PlayerE → Nat → Pass2State → Pass2State
  | [], _, s => s
  | p1 :: rest, i, s =>
      pass2Outer cmp rest (i + 1) (pass2Inner cmp p1 (s.live.drop (i + 1)) s)

/-- The ship × ship pass of `Gameplay.__detect_collisions`. -/
def detectShipShip (players : List PlayerE) (cmp : Nat → Nat → Bool) : Pass2State :=
  pass2Outer cmp players 0 ⟨players, [], false⟩

/-- The observable outcome of one full `Gameplay.__detect_collisions` call:
surviving players and projectiles, explosions spawned (pass 1 then pass 2,
in source order), `PLAYER_HIT` events posted to the event queue, and whether
any removal inconsistency was logged.  The ship × ship pass posts no events:
it removes ships directly via `__kill_player`. -/
structure CollisionResult where
  players : List PlayerE
  projectiles : List ProjE
  explosions : List (ℚ × ℚ)
  hitEvents : List (Nat × Int)
  errorLogged : Bool
  deriving Repr, DecidableEq

/-- `Gameplay.__detect_collisions`: the ship × projectile pass followed by
the ship × ship pass (which starts from the player group unchanged by
pass 1, since pass 1 kills only projectiles). -/
def detectCollisions (w : World) (damages : Nat → Int) : CollisionResult :=
  let r1 := detectShipProjectile w damages
  let s2 := detectShipShip w.players w.collideMaskPl
  ⟨s2.live, r1.projectiles, r1.explosions ++ s2.explosions, r1.hitEvents, s2.errorLogged⟩

/-- Whether a removal event is `PLAYER_DIED` — the only branch of
`Gameplay.__handle_events` that calls `__game_over()`. -/
def isPlayerDied : RemovalEvent → Bool
  | .playerDied _ => true
  | _ => false

/-- Concrete scene for C1: two ships at distinct positions whose pixel
masks overlap, no projectiles in flight. -/
def c1World : World :=
  { players := [⟨1, (100, 100)⟩, ⟨2, (200, 200)⟩],
    projectiles := [],
    collideRect := fun _ _ => false,
    collideMaskPP := fun _ _ => false,
    collideMaskPl := fun _ _ => true }

/-- Concrete scene for C5: ship 1 rect- and mask-collides with
projectile 101, ship 2 rect- and mask-collides with projectile 102. -/
def c5World : World :=
  { players := [⟨1, (100, 100)⟩, ⟨2, (200, 200)⟩],
    projectiles := [⟨101⟩, ⟨102⟩],
    collideRect := fun p q => (p == 1 && q == 101) || (p == 2 && q == 102),
    collideMaskPP := fun p q => (p == 1 && q == 101) || (p == 2 && q == 102),
    collideMaskPl := fun _ _ => false }

/- =====================================================================
   State manager: spycewar/states/state_manager.py (StateManager.update,
   StateManager.__change_state), with spycewar/states/intro.py,
   gameover.py, gameplay.py supplying the enter/exit signatures
   ===================================================================== -/

/-- The `GameState` enum (spycewar/enums/states.py), with the
`GAME_OVER` member referenced by `state_manager.py` and `gameplay.py`. -/
inductive GameState where
  | NONE
  | INTRO
  | GAMEPLAY
  | GAME_OVER
  deriving Repr, DecidableEq

/-- The per-state fields managed by `State.__init__` and the manager:
`done`, `next_state`, `previous_state`. -/
structure StateFields where
  done : Bool
  next_state : GameState
  previous_state : GameState
  deriving Repr, DecidableEq

/-- `GameContext` (spycewar/states/game_context.py): a key/value store
passed across phase transitions. -/
structure GameContext where
  data : List (String × String)
  deriving Repr, DecidableEq

/-- Number of positional parameters (beyond `self`) of each state's
`enter` method in the source: `Intro.enter(self, context)`,
`GameOver.enter(self, context)`, `Gameplay.enter(self)`. -/
def enterContextParams : GameState → Nat
  | .INTRO => 1
  | .GAME_OVER => 1
  | _ => 0

/-- A Python method call `state.enter(*args)`: it raises `TypeError` when
the argument count does not match the method's signature; on success every
`enter` implementation resets `done` to `False`. -/
def callEnter (s : GameState) (f : StateFields) (args : List GameContext) :
    Except String StateFields :=
  if args.length = enterContextParams s then Except.ok { f with done := false }
  else Except.error "TypeError"

/-- The manager's bookkeeping: the persistent state objects (their managed
fields) and the current state name. -/
structure ManagerState where
  states : GameState → StateFields
  currentName : GameState

/-- Model of `StateManager.__change_state`: call `exit()` on the current
state and discard its return value; look up the successor by the current
state's `next_state`; set the successor's `previous_state` to the outgoing
state name; then call `enter()` — with no argument, exactly as in the
source (`self.__current_state.enter()`). -/
def change_state (m : ManagerState) : Except String ManagerState :=
  let previous := m.currentName
  let nextName := (m.states m.currentName).next_state
  match callEnter nextName { m.states nextName with previous_state := previous } [] with
  | .ok f =>
      Except.ok
        { states := fun s => if s = nextName then f else m.states s,
          currentName := nextName }
  | .error e => Except.error e

/-- Model of `StateManager.update`'s transition check: once per frame, if
the current state's `done` flag is set, run `__change_state`. -/
def managerUpdate (m : ManagerState) : Except String ManagerState :=
  if (m.states m.currentName).done then change_state m else Except.ok m

/-- Manager about to transition out of `GAMEPLAY` (its `done` flag is set
by the `GAMEOVER` event and its `next_state` is `GAME_OVER`). -/
def gameplayDoneManager : ManagerState :=
  { states := fun s =>
      match s with
      | .GAMEPLAY => ⟨true, .GAME_OVER, .NONE⟩
      | .INTRO => ⟨false, .GAMEPLAY, .NONE⟩
      | .GAME_OVER => ⟨false, .INTRO, .NONE⟩
      | .NONE => ⟨false, .NONE, .NONE⟩,
    currentName := .GAMEPLAY }

/-- Manager about to transition out of `INTRO` (a keypress set `done`). -/
def introDoneManager : ManagerState :=
  { states := fun s =>
      match s with
      | .GAMEPLAY => ⟨false, .GAME_OVER, .NONE⟩
      | .INTRO => ⟨true, .GAMEPLAY, .NONE⟩
      | .GAME_OVER => ⟨false, .INTRO, .NONE⟩
      | .NONE => ⟨false, .NONE, .NONE⟩,
    currentName := .INTRO }

/- =====================================================================
   Ship firing and velocity physics: spycewar/entities/players/player.py
   (Player.handle_input fire branch, __fire, __compute_trajectory,
   __update_velocity)
   ===================================================================== -/

/-- Euclidean length of a pygame `Vector2` (`Vector2.length()`).  These
float computations involve square roots and trigonometry, so they are
modelled over the exact reals. -/
noncomputable def vlen (v : ℝ × ℝ) : ℝ := Real.sqrt (v.1 ^ 2 + v.2 ^ 2)

/-- pygame `Vector2.rotate_ip(angle)`: rotation by `angle` degrees. -/
noncomputable def rotate_deg (v : ℝ × ℝ) (angle : ℝ) : ℝ × ℝ :=
  let r := angle * Real.pi / 180
  (v.1 * Real.cos r - v.2 * Real.sin r, v.1 * Real.sin r + v.2 * Real.cos r)

/-- The rotated acceleration vector built by `Player.__update_velocity`:
`Vector2(acceleration, 0).rotate_ip(-angle - 90)`. -/
noncomputable def acceleration_vector (acceleration angle : ℝ) : ℝ × ℝ :=
  rotate_deg (acceleration, 0) (-angle - 90)

/-- `Player.__update_velocity`: add the rotated acceleration vector to the
current velocity; keep the sum if `velocity.length() <= max_speed`,
otherwise return `velocity.normalize() * max_speed`. -/
noncomputable def update_velocity (vel : ℝ × ℝ) (acceleration angle max_speed : ℝ) :
    ℝ × ℝ :=
  let a := acceleration_vector acceleration angle
  let velocity := (vel.1 + a.1, vel.2 + a.2)
  if vlen velocity ≤ max_speed then velocity
  else (velocity.1 / vlen velocity * max_speed, velocity.2 / vlen velocity * max_speed)

/-- The direction vector of `Player.__compute_trajectory`:
`-Vector2(sin(radians(angle)), cos(radians(angle)))`. -/
noncomputable def direction_vector (angle : ℝ) : ℝ × ℝ :=
  let r := angle * Real.pi / 180
  (-Real.sin r, -Real.cos r)

/-- `Player.__compute_trajectory`: flip the direction when `backwards`;
velocity is the ship velocity plus `direction * speed`; position offsets
the ship position by `direction * (image.get_height() // 2 + offset)`
(`//` is Python floor division on the nonnegative sprite height).
Returns `(velocity, position)` exactly as the source does. -/
noncomputable def compute_trajectory (position velocity : ℝ × ℝ) (angle : ℝ)
    (speed : ℝ) (backwards : Bool) (offset : ℤ) (imageHeight : ℕ) :
    (ℝ × ℝ) × (ℝ × ℝ) :=
  let d0 := direction_vector angle
  let d := if backwards then (-d0.1, -d0.2) else d0
  let vel := (velocity.1 + d.1 * speed, velocity.2 + d.2 * speed)
  let k : ℝ := ((imageHeight / 2 : ℕ) : ℝ) + (offset : ℝ)
  let pos := (d.1 * k + position.1, d.2 * k + position.2)
  (vel, pos)

/-- The payload of the fire event posted by `Player.__fire`: spawn
position (`pos`) and projectile velocity (`vel`). -/
structure FireEvent where
  pos : ℝ × ℝ
  vel : ℝ × ℝ

/-- `Player.__fire`: set the cooldown to `projectile_cooldown` through the
setter (which clamps at 0 from below), compute the trajectory with the
default `offset = 10` and `backwards = False` at `speed =
projectile_speed`, and post the fire event.  Returns the posted event and
the new cooldown value. -/
noncomputable def fire (position velocity : ℝ × ℝ) (angle : ℝ)
    (projectile_speed projectile_cooldown : ℝ) (imageHeight : ℕ) :
    FireEvent × ℝ :=
  let new_cooldown := max projectile_cooldown 0
  let t := compute_trajectory position velocity angle projectile_speed false 10 imageHeight
  (⟨t.2, t.1⟩, new_cooldown)

/-- The fire branch of `Player.handle_input`: the pressed fire key calls
`__fire()` only when `self.cooldown <= 0.0`; otherwise nothing happens. -/
noncomputable def handle_fire_key (cooldown : ℝ) (position velocity : ℝ × ℝ)
    (angle projectile_speed projectile_cooldown : ℝ) (imageHeight : ℕ) :
    Option (FireEvent × ℝ) :=
  if cooldown ≤ 0 then
    some (fire position velocity angle projectile_speed projectile_cooldown imageHeight)
  else none

/- =====================================================================
   THEOREMS
   ===================================================================== -/

/-- Preservation: one event keeps the health invariant, provided heal
amounts are nonnegative (damage may be arbitrary: the setter clamps on
both sides). -/
theorem applyHealthEvent_inv (s : PlayerState) (e : HealthEvent)
    (hs : healthInv s) (he : healNonneg e) :
    healthInv (applyHealthEvent s e) := by
  cases e with
  | damage d =>
      refine ⟨le_max_left 0 _, ?_⟩
      have h0 : (0 : Int) ≤ s.maxHealth := le_trans hs.1 hs.2
      simp only [applyHealthEvent, take_damage, setHealth, healthInv]
      exact max_le h0 (min_le_left _ _)
  | heal a =>
      have ha : 0 ≤ a := he
      refine ⟨?_, min_le_left _ _⟩
      have h0 : (0 : Int) ≤ s.maxHealth := le_trans hs.1 hs.2
      simp only [applyHealthEvent, heal]
      exact le_min h0 (le_trans hs.1 (le_add_of_nonneg_right ha))

/-- The health invariant is preserved along any event sequence whose heal
amounts are nonnegative. -/
theorem healthInv_applyHealthEvents (es : List HealthEvent) :
    ∀ (s : PlayerState), healthInv s → (∀ e ∈ es, healNonneg e) →
    healthInv (applyHealthEvents s es) := by
  induction es with
  | nil => intro s hs _; simpa [applyHealthEvents] using hs
  | cons e rest ih =>
      intro s hs hh
      have hs2 : healthInv (applyHealthEvent s e) :=
        applyHealthEvent_inv s e hs (hh e (List.mem_cons_self e rest))
      have hh2 : ∀ x ∈ rest, healNonneg x := fun x hx => hh x (List.mem_cons_of_mem e hx)
      simpa [applyHealthEvents] using ih (applyHealthEvent s e) hs2 hh2

/-- C3: starting from `health = max_health` with `0 ≤ max_health`, every
prefix of any sequence of damage/heal events (heal amounts nonnegative, as
supplied by power-ups) leaves the state satisfying
`0 ≤ health ≤ max_health`: damage is clamped at 0 from below and healing at
`max_health` from above. -/
theorem c3_health_invariant (maxHealth : Int) (es : List HealthEvent)
    (hmax : 0 ≤ maxHealth)
    (hheal : ∀ e ∈ es, healNonneg e) :
    ∀ n, healthInv (applyHealthEvents (initPlayerState maxHealth) (es.take n)) := by
  intro n
  exact healthInv_applyHealthEvents (es.take n) (initPlayerState maxHealth)
    ⟨hmax, le_refl _⟩ (fun e he => hheal e (List.take_subset n es he))

/-- Witness for C3 at a concrete run: `max_health = 100`, events
damage 150, heal 30, heal 300, damage −5, full prefix. -/
theorem c3_health_invariant_witness :
    (0 : Int) ≤ 100 ∧
    healthInv (applyHealthEvents (initPlayerState 100)
      (([HealthEvent.damage 150, HealthEvent.heal 30,
         HealthEvent.heal 300, HealthEvent.damage (-5)]).take 4)) :=
  ⟨by decide,
   c3_health_invariant 100
     [HealthEvent.damage 150, HealthEvent.heal 30,
      HealthEvent.heal 300, HealthEvent.damage (-5)]
     (by decide) (by decide) 4⟩

/-- C4: the code violates the claim.  `Player.__normalise_angle` shifts by at
most one period, so at angle 721 it returns 361, which is not in [0,360); a
second application gives 1, so it is not idempotent; and at angle 720 the
period law fails: `normalise_angle (720 + 360) = 720` while
`normalise_angle 720 = 360` (itself already outside [0,360)).  This
contradicts the method's own docstring ("Normalises the angle to be between 0
and 360 degrees"). -/
theorem c4_code_eval :
    normalise_angle 721 = 361 ∧
    ¬ (normalise_angle 721 < 360) ∧
    normalise_angle (normalise_angle 721) ≠ normalise_angle 721 ∧
    normalise_angle (720 + 360) ≠ normalise_angle 720 ∧
    ¬ (normalise_angle 360 < 360) := by
  refine ⟨?_, ?_, ?_, ?_, ?_⟩ <;> norm_num [normalise_angle]

/-- C8: on `Projectile.update`, if the next position step stays inside the
playfield the position advances by exactly `velocity * dt` and no event is
posted; if it would leave the playfield, a `PROJECTILE_OUT_OF_SCREEN` event
referencing the projectile itself is posted and the position is unchanged
that frame.  In particular a projectile starting at `x ≥ 0` never moves to a
negative x-coordinate. -/
theorem c8_projectile_update (p : Projectile) (dt width height : ℚ) :
    (in_bounds p.pos (p.vel.1 * dt, p.vel.2 * dt) width height = true →
      projectile_update p dt width height =
        ({ p with pos := (p.pos.1 + p.vel.1 * dt, p.pos.2 + p.vel.2 * dt) }, none)) ∧
    (in_bounds p.pos (p.vel.1 * dt, p.vel.2 * dt) width height = false →
      projectile_update p dt width height = (p, some p)) ∧
    (0 ≤ p.pos.1 → 0 ≤ (projectile_update p dt width height).1.pos.1) := by
  refine ⟨?_, ?_, ?_⟩
  · intro h; simp [projectile_update, h]
  · intro h; simp [projectile_update, h]
  · intro hx
    by_cases h : in_bounds p.pos (p.vel.1 * dt, p.vel.2 * dt) width height = true
    · have hb := h
      unfold in_bounds at hb
      simp only [decide_eq_true_eq] at hb
      simp [projectile_update, h]
      exact hb.1
    · have hb : in_bounds p.pos (p.vel.1 * dt, p.vel.2 * dt) width height = false :=
        Bool.eq_false_iff.mpr h
      simp [projectile_update, hb]
      exact hx

/-- Witness for C8: a projectile at (5,5) with velocity (−10,0), dt = 1, on a
100×100 playfield: the next step would cross x < 0, so the out-of-screen
event referencing the projectile is posted and the position is unchanged. -/
theorem c8_projectile_update_witness :
    in_bounds (5, 5) ((-10) * 1, 0 * 1) 100 100 = false ∧
    projectile_update ⟨(5, 5), (-10, 0)⟩ 1 100 100 =
      (⟨(5, 5), (-10, 0)⟩, some ⟨(5, 5), (-10, 0)⟩) :=
  ⟨by norm_num [in_bounds],
   (c8_projectile_update ⟨(5, 5), (-10, 0)⟩ 1 100 100).2.1 (by norm_num [in_bounds])⟩

/-- C9: a removal event (projectile out-of-screen, thrust exhausted,
explosion over, player died) referencing an entity absent from its
collection takes the `logger.error` branch and leaves all four entity
collections unchanged; the handler is a total function (no exception), so
the frame loop continues. -/
theorem c9_double_removal (s : GameplayEntities) (e : RemovalEvent)
    (h : refAbsent s e) :
    sameCollections (handleRemovalEvent s e) s ∧
    (handleRemovalEvent s e).errorLogged = true := by
  cases e with
  | outOfScreen p =>
      have hp : p ∉ s.projectiles := h
      constructor
      · simp [handleRemovalEvent, kill_projectile, removeIfPresent, hp, sameCollections]
      · simp [handleRemovalEvent, kill_projectile, removeIfPresent, hp]
  | thrustExhausted t =>
      have ht : t ∉ s.thrusts := h
      constructor
      · simp [handleRemovalEvent, kill_thrust, removeIfPresent, ht, sameCollections]
      · simp [handleRemovalEvent, kill_thrust, removeIfPresent, ht]
  | explosionOver x =>
      have hx : x ∉ s.explosions := h
      constructor
      · simp [handleRemovalEvent, kill_explosion, removeIfPresent, hx, sameCollections]
      · simp [handleRemovalEvent, kill_explosion, removeIfPresent, hx]
  | playerDied p =>
      have hp : p ∉ s.players := h
      constructor
      · simp [handleRemovalEvent, game_over, kill_player, removeIfPresent, hp, sameCollections]
      · simp [handleRemovalEvent, game_over, kill_player, removeIfPresent, hp]

/-- Witness for C9: a duplicate out-of-screen event for projectile 7, which
is not in the (singleton) projectile collection. -/
theorem c9_double_removal_witness :
    refAbsent (GameplayEntities.mk [1, 2] [3] [] [] false false false)
      (RemovalEvent.outOfScreen 7) ∧
    sameCollections
      (handleRemovalEvent (GameplayEntities.mk [1, 2] [3] [] [] false false false)
        (RemovalEvent.outOfScreen 7))
      (GameplayEntities.mk [1, 2] [3] [] [] false false false) ∧
    (handleRemovalEvent (GameplayEntities.mk [1, 2] [3] [] [] false false false)
      (RemovalEvent.outOfScreen 7)).errorLogged = true :=
  ⟨by decide,
   (c9_double_removal _ _ (by decide)).1,
   (c9_double_removal _ _ (by decide)).2⟩

/-- Pointwise-equal predicates on the members of a list give the same
`List.any`. -/
theorem any_congr_mem {α : Type} {p q : α → Bool} :
    ∀ {l : List α}, (∀ a ∈ l, p a = q a) → l.any p = l.any q := by
  intro l
  induction l with
  | nil => intro _; rfl
  | cons a t ih =>
      intro h
      simp only [List.any_cons, h a (List.mem_cons_self a t),
        ih (fun x hx => h x (List.mem_cons_of_mem a hx))]

/-- Generalised characterisation of the fold inside `maskKillPass`. -/
theorem maskKillPass_foldl_spec (cm : Nat → Nat → Bool) :
    ∀ (allPlayers : List PlayerE) (projs : List ProjE) (b : Bool),
    allPlayers.foldl
      (fun acc A =>
        let hits := acc.1.filter (fun q => cm A.id q.id)
        if hits.isEmpty then acc
        else (acc.1.filter (fun q => !(cm A.id q.id)), true))
      (projs, b) =
    (projs.filter (fun q => !(allPlayers.any (fun A => cm A.id q.id))),
     b || projs.any (fun q => allPlayers.any (fun A => cm A.id q.id))) := by
  intro allPlayers
  induction allPlayers with
  | nil => intro projs b; simp
  | cons A rest ih =>
      intro projs b
      rw [List.foldl_cons]
      cases hf : projs.filter (fun q => cm A.id q.id) with
      | nil =>
          have hA : ∀ q ∈ projs, cm A.id q.id = false := by
            intro q hq
            exact Bool.eq_false_iff.mpr ((List.filter_eq_nil_iff.mp hf) q hq)
          simp only [hf, List.isEmpty_nil, if_true]
          rw [ih projs b]
          have hfil :
              projs.filter (fun q => !(rest.any (fun A2 => cm A2.id q.id))) =
              projs.filter (fun q => !((A :: rest).any (fun A2 => cm A2.id q.id))) :=
            List.filter_congr (fun q hq => by
              simp only [List.any_cons, hA q hq, Bool.false_or])
          have hany :
              projs.any (fun q => rest.any (fun A2 => cm A2.id q.id)) =
              projs.any (fun q => (A :: rest).any (fun A2 => cm A2.id q.id)) :=
            any_congr_mem (fun q hq => by
              simp only [List.any_cons, hA q hq, Bool.false_or])
          rw [hfil, hany]
      | cons q0 qs =>
          have hq0 : q0 ∈ projs ∧ cm A.id q0.id = true := by
            have hmem : q0 ∈ projs.filter (fun q => cm A.id q.id) := by
              rw [hf]; exact List.mem_cons_self q0 qs
            exact List.mem_filter.mp hmem
          simp only [hf, List.isEmpty_cons, if_false, Bool.false_eq_true]
          rw [ih (projs.filter (fun q => !(cm A.id q.id))) true]
          have hflag :
              projs.any (fun q => (A :: rest).any (fun A2 => cm A2.id q.id)) = true :=
            List.any_eq_true.mpr ⟨q0, hq0.1, by
              simp only [List.any_cons, hq0.2, Bool.true_or]⟩
          have hfil :
              (projs.filter (fun q => !(cm A.id q.id))).filter
                  (fun q => !(rest.any (fun A2 => cm A2.id q.id))) =
              projs.filter (fun q => !((A :: rest).any (fun A2 => cm A2.id q.id))) := by
            rw [List.filter_filter]
            exact List.filter_congr (fun q _ => by
              simp only [List.any_cons, Bool.not_or, Bool.and_comm])
          rw [hfil, hflag, Bool.true_or, Bool.or_true]

/-- `maskKillPass` removes exactly the projectiles mask-hit by some player
and reports whether any (player, projectile) pair mask-collides. -/
theorem maskKillPass_eq (allPlayers : List PlayerE) (projs : List ProjE)
    (cm : Nat → Nat → Bool) :
    maskKillPass allPlayers projs cm =
      (projs.filter (fun q => !(allPlayers.any (fun A => cm A.id q.id))),
       projs.any (fun q => allPlayers.any (fun A => cm A.id q.id))) := by
  unfold maskKillPass
  rw [maskKillPass_foldl_spec]
  rw [Bool.false_or]

/-- When no (player, projectile) pair mask-collides with the current
projectile list, the remaining outer iterations of the ship × projectile
loop spawn nothing, post nothing and kill nothing. -/
theorem pass1Go_no_mask (allPlayers : List PlayerE) (cm : Nat → Nat → Bool)
    (damages : Nat → Int) :
    ∀ (rect : List PlayerE) (projs : List ProjE) (k : Nat),
    projs.any (fun q => allPlayers.any (fun A => cm A.id q.id)) = false →
    pass1Go allPlayers cm damages rect projs k = ⟨projs, [], []⟩ := by
  intro rect
  induction rect with
  | nil => intro projs k _; rfl
  | cons P rest ih =>
      intro projs k h
      have hfil : projs.filter (fun q => !(allPlayers.any (fun A => cm A.id q.id))) = projs :=
        List.filter_eq_self.mpr (fun q hq => by
          have hq2 : allPlayers.any (fun A => cm A.id q.id) = false :=
            Bool.eq_false_iff.mpr ((List.any_eq_false.mp h) q hq)
          rw [hq2]; rfl)
      simp only [pass1Go]
      rw [maskKillPass_eq, h, hfil]
      exact ih projs k h

/-- C5 (amended): in the ship × projectile pass, when some ship passes the
broad-phase rect test (head of the rect dict `P0`) and at least one
(ship, projectile) pair in the field passes the pixel-mask test, the
resolver spawns exactly one explosion, at `P0`'s position, publishes exactly
one player-hit event targeting `P0` — the first rect-hit ship, which need
not be a mask-hit ship — with damage drawn from `random.randint(10, 20)`,
and removes every mask-hit projectile; the later rect-hit ships get no event
because the first iteration already removed all mask-hit projectiles. -/
theorem c5_ship_projectile (w : World) (damages : Nat → Int)
    (P0 : PlayerE) (rest : List PlayerE)
    (hrect : rectPlayers w = P0 :: rest)
    (hmask : w.projectiles.any
      (fun q => w.players.any (fun A => w.collideMaskPP A.id q.id)) = true)
    (hdam : 10 ≤ damages 0 ∧ damages 0 ≤ 20) :
    detectShipProjectile w damages =
      ⟨w.projectiles.filter
        (fun q => !(w.players.any (fun A => w.collideMaskPP A.id q.id))),
       [P0.pos], [(P0.id, damages 0)]⟩ ∧
    10 ≤ damages 0 ∧ damages 0 ≤ 20 := by
  refine ⟨?_, hdam⟩
  unfold detectShipProjectile
  rw [hrect]
  simp only [pass1Go]
  rw [maskKillPass_eq, hmask]
  have hnp :
      (w.projectiles.filter
        (fun q => !(w.players.any (fun A => w.collideMaskPP A.id q.id)))).any
        (fun q => w.players.any (fun A => w.collideMaskPP A.id q.id)) = false := by
    refine Bool.eq_false_iff.mpr ?_
    intro hc
    obtain ⟨q, hq, hpq⟩ := List.any_eq_true.mp hc
    obtain ⟨_, hnq⟩ := List.mem_filter.mp hq
    rw [hpq] at hnq
    simp at hnq
  rw [pass1Go_no_mask w.players w.collideMaskPP damages rest _ 1 hnp]
  simp

/-- C5 counterexample: the claim as stated is false.  In `c5World` the pair
(ship 2, projectile 102) passes the broad-phase rect test and the pixel-mask
test, yet the resolver posts no player-hit event targeting ship 2 and spawns
no explosion at ship 2's position (200, 200): the single hit event of the
pass targets ship 1, because the first outer iteration's mask groupcollide
already removed every mask-hit projectile. -/
theorem c5_counterexample :
    c5World.collideRect 2 102 = true ∧
    c5World.collideMaskPP 2 102 = true ∧
    PlayerE.mk 2 (200, 200) ∈ c5World.players ∧
    ProjE.mk 102 ∈ c5World.projectiles ∧
    (detectShipProjectile c5World (fun _ => 15)).hitEvents.all
      (fun e => e.1 != 2) = true ∧
    ((200 : ℚ), (200 : ℚ)) ∉ (detectShipProjectile c5World (fun _ => 15)).explosions ∧
    (detectShipProjectile c5World (fun _ => 15)).hitEvents = [(1, 15)] := by
  refine ⟨rfl, rfl, ?_, ?_, ?_, ?_, ?_⟩ <;> decide

/-- Witness for C5 at `c5World`: the amended theorem applied at a concrete
scene, with the mask-hit projectiles removed and the single event targeting
the first rect-hit ship. -/
theorem c5_ship_projectile_witness :
    rectPlayers c5World = PlayerE.mk 1 (100, 100) :: [PlayerE.mk 2 (200, 200)] ∧
    (c5World.projectiles.any
      (fun q => c5World.players.any (fun A => c5World.collideMaskPP A.id q.id))) = true ∧
    detectShipProjectile c5World (fun _ => 15) = ⟨[], [(100, 100)], [(1, 15)]⟩ := by
  refine ⟨by decide, by decide, ?_⟩
  have h := (c5_ship_projectile c5World (fun _ => 15)
    (PlayerE.mk 1 (100, 100)) [PlayerE.mk 2 (200, 200)]
    (by decide) (by decide) (by norm_num)).1
  rw [h]
  decide

/-- C1: code-bug evaluation.  In `c1World` two ships at distinct positions
have overlapping masks; `Gameplay.__detect_collisions` spawns one explosion
at each ship's position and removes both ships from the player group within
the same frame — but it posts no event at all: the ship × ship pass calls
`__kill_player` directly, so no `PLAYER_DIED` event is ever processed, and
the delayed game-over timer (3000 ms, `__game_over`) — which, as the last
conjunct shows, is armed only by the `PLAYER_DIED` branch of
`__handle_events` — is never set.  The claim's game-over clause therefore
fails: after mutual destruction no game-over event fires at all. -/
theorem c1_code_eval :
    (PlayerE.mk 1 (100, 100)).pos ≠ (PlayerE.mk 2 (200, 200)).pos ∧
    c1World.collideMaskPl 1 2 = true ∧
    detectCollisions c1World (fun _ => 15) =
      ⟨[], [], [(100, 100), (200, 200)], [], false⟩ ∧
    gameOverTriggerDelay = 3000 ∧
    (∀ (s : GameplayEntities) (ev : RemovalEvent),
      (handleRemovalEvent s ev).gameOverTimerSet =
        (s.gameOverTimerSet || isPlayerDied ev)) := by
  refine ⟨by decide, rfl, by decide, rfl, ?_⟩
  intro s ev
  cases ev <;> simp [handleRemovalEvent, kill_projectile, kill_thrust,
    kill_explosion, kill_player, game_over, isPlayerDied]

/-- C2: code-bug evaluation.  `StateManager.update` does check `done` once
per frame and `__change_state` does look up the successor by `next_state`
and record the outgoing state name as the successor's `previous_state` (the
third conjunct shows the INTRO → GAMEPLAY transition doing exactly that) —
but it discards the context returned by `exit()` and calls `enter()` with no
argument, while `GameOver.enter(self, context)` (like `Intro.enter`)
requires a context parameter, so the transition into GAME_OVER raises
`TypeError` instead of passing the exit payload to `enter(context)`. -/
theorem c2_code_eval :
    managerUpdate gameplayDoneManager = Except.error "TypeError" ∧
    enterContextParams GameState.GAME_OVER = 1 ∧
    (managerUpdate introDoneManager).map
      (fun m => (m.currentName, (m.states GameState.GAMEPLAY).previous_state,
                 (m.states GameState.GAMEPLAY).done)) =
      Except.ok (GameState.GAMEPLAY, GameState.INTRO, false) :=
  ⟨rfl, rfl, rfl⟩

/-- C10: `Player.process_events` applies a health power-up pickup heal
unconditionally — for every designated player on the event, every player
heals (clamped at `max_health` by `heal`) — whereas the hit branch applies
damage only when the event's player equals this player; and
`HealthBar.process_events` guards both branches by its own player id. -/
theorem c10_pickup_heals_everyone (selfId designated : Nat) (st : PlayerState)
    (v : Int) (target : Nat) (d : Int) (b : HealthBar) :
    player_process_events selfId st (BusEvent.healthPickup designated v) = heal st v ∧
    player_process_events selfId st (BusEvent.playerHit target d) =
      (if target = selfId then take_damage st d else st) ∧
    healthBar_process_events b (BusEvent.healthPickup designated v) =
      (if designated = b.playerId then healthBar_restore_health b v else b) ∧
    healthBar_process_events b (BusEvent.playerHit target d) =
      (if target = b.playerId then healthBar_take_damage b d else b) :=
  ⟨rfl, rfl, rfl, rfl⟩

/-- The length of a vector is nonnegative. -/
theorem vlen_nonneg (v : ℝ × ℝ) : 0 ≤ vlen v := Real.sqrt_nonneg _

/-- Normalizing a vector of positive length and rescaling it by `m ≥ 0`
yields a vector of length exactly `m`. -/
theorem vlen_normalize_scale (v : ℝ × ℝ) (m : ℝ) (hm : 0 ≤ m)
    (hv : 0 < vlen v) :
    vlen (v.1 / vlen v * m, v.2 / vlen v * m) = m := by
  have hL : vlen v ≠ 0 := ne_of_gt hv
  have hsq : Real.sqrt (v.1 ^ 2 + v.2 ^ 2) = vlen v := rfl
  have hsum : (v.1 / vlen v * m) ^ 2 + (v.2 / vlen v * m) ^ 2
      = (m / vlen v) ^ 2 * (v.1 ^ 2 + v.2 ^ 2) := by ring
  show Real.sqrt ((v.1 / vlen v * m) ^ 2 + (v.2 / vlen v * m) ^ 2) = m
  rw [hsum, Real.sqrt_mul (sq_nonneg _), Real.sqrt_sq_eq_abs,
    abs_of_nonneg (div_nonneg hm (le_of_lt hv)), hsq]
  exact div_mul_cancel₀ m hL

/-- C7: for every current velocity, acceleration, angle and
`max_speed ≥ 0`, the velocity produced by `Player.__update_velocity` has
magnitude at most `max_speed`; when the magnitude of the velocity plus the
rotated acceleration vector is within `max_speed`, that sum is returned
unchanged, and when it exceeds `max_speed` the result is the normalized sum
rescaled to magnitude exactly `max_speed`. -/
theorem c7_velocity_clamp (vel : ℝ × ℝ) (acceleration angle max_speed : ℝ)
    (hm : 0 ≤ max_speed) :
    vlen (update_velocity vel acceleration angle max_speed) ≤ max_speed ∧
    (vlen (vel.1 + (acceleration_vector acceleration angle).1,
           vel.2 + (acceleration_vector acceleration angle).2) ≤ max_speed →
      update_velocity vel acceleration angle max_speed =
        (vel.1 + (acceleration_vector acceleration angle).1,
         vel.2 + (acceleration_vector acceleration angle).2)) ∧
    (max_speed < vlen (vel.1 + (acceleration_vector acceleration angle).1,
                       vel.2 + (acceleration_vector acceleration angle).2) →
      vlen (update_velocity vel acceleration angle max_speed) = max_speed) := by
  have hu : update_velocity vel acceleration angle max_speed =
      if vlen (vel.1 + (acceleration_vector acceleration angle).1,
               vel.2 + (acceleration_vector acceleration angle).2) ≤ max_speed then
        (vel.1 + (acceleration_vector acceleration angle).1,
         vel.2 + (acceleration_vector acceleration angle).2)
      else
        ((vel.1 + (acceleration_vector acceleration angle).1) /
            vlen (vel.1 + (acceleration_vector acceleration angle).1,
                  vel.2 + (acceleration_vector acceleration angle).2) * max_speed,
         (vel.2 + (acceleration_vector acceleration angle).2) /
            vlen (vel.1 + (acceleration_vector acceleration angle).1,
                  vel.2 + (acceleration_vector acceleration angle).2) * max_speed) := rfl
  by_cases h : vlen (vel.1 + (acceleration_vector acceleration angle).1,
      vel.2 + (acceleration_vector acceleration angle).2) ≤ max_speed
  · refine ⟨?_, fun _ => ?_, fun hlt => absurd hlt (not_lt.mpr h)⟩
    · rw [hu, if_pos h]; exact h
    · rw [hu, if_pos h]
  · have hgt : max_speed < vlen (vel.1 + (acceleration_vector acceleration angle).1,
        vel.2 + (acceleration_vector acceleration angle).2) := not_le.mp h
    have hpos : 0 < vlen (vel.1 + (acceleration_vector acceleration angle).1,
        vel.2 + (acceleration_vector acceleration angle).2) :=
      lt_of_le_of_lt hm hgt
    have hlen := vlen_normalize_scale
      (vel.1 + (acceleration_vector acceleration angle).1,
       vel.2 + (acceleration_vector acceleration angle).2) max_speed hm hpos
    refine ⟨?_, fun hle => absurd hgt (not_lt.mpr hle), fun _ => ?_⟩
    · rw [hu, if_neg h]; exact le_of_eq hlen
    · rw [hu, if_neg h]; exact hlen

/-- Witness for C7 at a concrete input: velocity (3, 4), no acceleration,
angle 0, `max_speed = 10`. -/
theorem c7_velocity_clamp_witness :
    (0 : ℝ) ≤ 10 ∧
    vlen (update_velocity (3, 4) 0 0 10) ≤ 10 :=
  ⟨by norm_num, (c7_velocity_clamp (3, 4) 0 0 10 (by norm_num)).1⟩

/-- C6: when the fire key is pressed with `cooldown <= 0`, the ship fires:
the posted event carries velocity = ship velocity + direction *
`projectile_speed` and position = ship position + direction *
(`image.get_height() // 2` + the fixed offset 10), where direction =
`direction_vector angle` = −(sin θ, cos θ); the cooldown is reset to
`projectile_cooldown` (nonnegative, as configured); and at angle 0 the
direction is (0, −1). -/
theorem c6_fire_event (cooldown : ℝ) (position velocity : ℝ × ℝ)
    (angle projectile_speed projectile_cooldown : ℝ) (imageHeight : ℕ)
    (hcd : cooldown ≤ 0) (hpc : 0 ≤ projectile_cooldown) :
    handle_fire_key cooldown position velocity angle projectile_speed
        projectile_cooldown imageHeight =
      some
        (⟨((direction_vector angle).1 * (((imageHeight / 2 : ℕ) : ℝ) + ((10 : ℤ) : ℝ)) + position.1,
           (direction_vector angle).2 * (((imageHeight / 2 : ℕ) : ℝ) + ((10 : ℤ) : ℝ)) + position.2),
          (velocity.1 + (direction_vector angle).1 * projectile_speed,
           velocity.2 + (direction_vector angle).2 * projectile_speed)⟩,
         projectile_cooldown) ∧
    direction_vector 0 = (0, -1) := by
  constructor
  · unfold handle_fire_key
    rw [if_pos hcd]
    unfold fire compute_trajectory
    simp only [Bool.false_eq_true, if_false]
    rw [max_eq_left hpc]
  · unfold direction_vector
    simp

/-- Witness for C6: ship at (100, 100) with zero velocity and angle 0 fires
with `projectile_speed = 5`, `projectile_cooldown = 1` and a 32-pixel-high
sprite: the projectile event is posted at (100, 74) — offset by
32 // 2 + 10 = 26 in the −y direction — with velocity (0, −5), and the
cooldown becomes 1. -/
theorem c6_fire_event_witness :
    (0 : ℝ) ≤ 0 ∧ (0 : ℝ) ≤ 1 ∧
    handle_fire_key 0 (100, 100) (0, 0) 0 5 1 32 =
      some (⟨(100, 74), (0, -5)⟩, 1) := by
  refine ⟨le_refl 0, by norm_num, ?_⟩
  have h := c6_fire_event 0 (100, 100) (0, 0) 0 5 1 32 (le_refl 0) (by norm_num)
  rw [h.1, h.2]
  norm_num
